import Mathlib

/-!
Verification of the EV charging platform's aggregation core against its
specification.  The mobile client code (`apiService.js`, `AuthContext.js`,
`LocationContext.js`) is embedded directly; the backend coordinator
components described by the specification (Aggregator, SessionCoordinator,
PaymentCoordinator) are not part of the checked-in sources and are modelled
from the specification text, as marked on each definition.
-/

namespace EVCP

/-! ### apiClient response interceptor (`apiService.js`, lines 14-69) -/

/-- The three AsyncStorage keys the client code reads and writes
(`authToken`, `refreshToken`, `user`).  `none` models an absent key. -/
structure Storage where
  authToken : Option String
  refreshToken : Option String
  user : Option String
  deriving DecidableEq

/-- An HTTP request as the interceptor sees it: `retryFlag` is the
`_retry` marker set on `error.config`, `auth` the `Authorization` header,
`payload` identifies the original request being (re-)issued. -/
structure Request where
  retryFlag : Bool
  auth : Option String
  payload : String
  deriving DecidableEq

/-- Outcome of one wire exchange: Axios resolves with response data or
rejects with an error carrying `error.response?.status`
(`none` when no HTTP response arrived at all). -/
inductive RawResult
  | success (data : String)
  | failure (status : Option Nat)
  deriving DecidableEq

/-- What the caller of `apiClient` ultimately observes. -/
inductive RejectKind
  | refreshError
  | httpError (status : Option Nat)
  deriving DecidableEq

inductive SendResult
  | ok (data : String)
  | rejected (kind : RejectKind)
  deriving DecidableEq

/-- Result of a request issued through `apiClient`, together with the
final storage contents, the number of token-refresh calls performed, and
the list of raw requests put on the wire (in order). -/
structure SendOutcome where
  store : Storage
  result : SendResult
  refreshes : Nat
  trace : List Request
  deriving DecidableEq

/-- One pass of `apiClient` with its response interceptor
(`apiService.js` lines 29-69).  `raw` is the wire, `refreshFn` the
`POST /auth/refresh` endpoint (returning new access and refresh tokens,
or failing).  A 401 on a request not yet marked `_retry` stores fresh
tokens and re-issues the original request through `apiClient` again
(the recursive call); every other error is rejected to the caller.  When
the refresh itself fails the three stored credentials are removed
(`AsyncStorage.multiRemove(['authToken', 'refreshToken', 'user'])`) and
the refresh error is rejected.  The fuel argument only bounds the
recursion depth; since the re-issued request carries `retryFlag = true`
and the 401 branch requires `retryFlag = false`, a depth of 2 is never
exceeded and the fuel-0 default is unreachable from `sendReq`. -/
def sendReqAux (raw : Request → RawResult)
    (refreshFn : String → Option (String × String)) :
    Nat → Storage → Request → SendOutcome
  | 0, st, req => ⟨st, .rejected (.httpError none), 0, [req]⟩
  | fuel + 1, st, req =>
    match raw req with
    | .success d => ⟨st, .ok d, 0, [req]⟩
    | .failure status =>
      if status = some 401 ∧ req.retryFlag = false then
        match st.refreshToken with
        | none => ⟨⟨none, none, none⟩, .rejected .refreshError, 0, [req]⟩
        | some rt =>
          match refreshFn rt with
          | none => ⟨⟨none, none, none⟩, .rejected .refreshError, 0, [req]⟩
          | some (a, r) =>
            let out := sendReqAux raw refreshFn fuel ⟨some a, some r, st.user⟩
              ⟨true, some a, req.payload⟩
            ⟨out.store, out.result, out.refreshes + 1, req :: out.trace⟩
      else ⟨st, .rejected (.httpError status), 0, [req]⟩

/-- A request issued through `apiClient`: interceptor recursion depth is
at most 2 (original request plus one retry), see `sendReqAux`. -/
def sendReq (raw : Request → RawResult)
    (refreshFn : String → Option (String × String))
    (st : Storage) (req : Request) : SendOutcome :=
  sendReqAux raw refreshFn 2 st req

/-! ### AuthContext (`AuthContext.js`, lines 40-84) -/

/-- Token pair returned by `POST /auth/login` and `POST /auth/register`. -/
structure AuthTokens where
  access_token : String
  refresh_token : String
  deriving DecidableEq

/-- A thrown request error as the catch blocks see it:
`error.response?.data?.detail` is a string when the server supplied one,
`none` when the response or its detail field is absent. -/
structure ApiFailure where
  detail : Option String
  deriving DecidableEq

/-- The object `login`/`register` resolve with:
`{success: true}` or `{success: false, error: <string>}`. -/
structure AuthResult where
  success : Bool
  error : Option String
  deriving DecidableEq

/-- JavaScript `x || fallback` for `x = error.response?.data?.detail`:
an absent detail and the empty string are both falsy and yield the
fallback message. -/
def jsOrElse (s : Option String) (fallback : String) : String :=
  match s with
  | none => fallback
  | some t => if t = "" then fallback else t

/-- `AuthProvider.login` (`AuthContext.js` lines 40-61): call the login
endpoint, store both tokens, fetch the profile with the fresh access
token, store it, and resolve `{success: true}`; any throw is caught and
resolved as `{success: false, error: detail || 'Login failed'}`.
Storage writes that happened before the throw are kept. -/
def login (loginApi : String → String → Except ApiFailure AuthTokens)
    (profileApi : String → Except ApiFailure String)
    (st : Storage) (email password : String) : Storage × AuthResult :=
  match loginApi email password with
  | .error e => (st, ⟨false, some (jsOrElse e.detail "Login failed")⟩)
  | .ok tok =>
    let st1 : Storage := ⟨some tok.access_token, some tok.refresh_token, st.user⟩
    match profileApi tok.access_token with
    | .error e => (st1, ⟨false, some (jsOrElse e.detail "Login failed")⟩)
    | .ok profile => (⟨st1.authToken, st1.refreshToken, some profile⟩, ⟨true, none⟩)

/-- `AuthProvider.register` (`AuthContext.js` lines 63-84): identical
shape to `login` with the register endpoint and the
`'Registration failed'` fallback message. -/
def registerUser
    (registerApi : String → String → String → String → Except ApiFailure AuthTokens)
    (profileApi : String → Except ApiFailure String)
    (st : Storage) (email password name phone : String) : Storage × AuthResult :=
  match registerApi email password name phone with
  | .error e => (st, ⟨false, some (jsOrElse e.detail "Registration failed")⟩)
  | .ok tok =>
    let st1 : Storage := ⟨some tok.access_token, some tok.refresh_token, st.user⟩
    match profileApi tok.access_token with
    | .error e => (st1, ⟨false, some (jsOrElse e.detail "Registration failed")⟩)
    | .ok profile => (⟨st1.authToken, st1.refreshToken, some profile⟩, ⟨true, none⟩)

/-! ### LocationContext (`LocationContext.js`, lines 43-70) -/

/-- The map region stored in the `location` state: coordinates plus the
fixed `0.05` deltas.  Coordinates are exact rationals; the code only
stores and forwards them, no floating-point arithmetic is embedded. -/
structure Region where
  latitude : ℚ
  longitude : ℚ
  latitudeDelta : ℚ
  longitudeDelta : ℚ
  deriving DecidableEq

/-- The provider state relevant to `getCurrentLocation`. -/
structure LocState where
  location : Option Region
  loading : Bool
  error : Option String
  deriving DecidableEq

/-- The hard-coded San Francisco fallback region
(`LocationContext.js` lines 61-66). -/
def sanFranciscoFallback : Region := ⟨37.7749, -122.4194, 0.05, 0.05⟩

/-- `getCurrentLocation` (`LocationContext.js` lines 43-70): read the
device position (`pos`), on success store it as the location and clear
the error, on any throw set the error message and fall back to the San
Francisco region; the `finally` block always ends with `loading = false`.
The prior state `st` is fully overwritten on both paths. -/
def getCurrentLocation (pos : Except Unit (ℚ × ℚ)) (_st : LocState) : LocState :=
  match pos with
  | .ok c => ⟨some ⟨c.1, c.2, 0.05, 0.05⟩, false, none⟩
  | .error _ =>
    ⟨some sanFranciscoFallback, false, some "Failed to get current location"⟩

/-! ### SessionCoordinator (modelled from the spec, §4.5) -/

/-- Modelled from the spec: the per-Session states of §4.5
(`Requested → Starting → Active → Stopping → Completed`, plus `Failed`).
The SessionCoordinator itself is not among the checked-in sources. -/
inductive SessionState
  | Requested
  | Starting
  | Active
  | Stopping
  | Completed
  | Failed
  deriving DecidableEq, Fintype

/-- Modelled from the spec: the events that drive the §4.5 transitions —
accepting a start call, the provider acknowledging start, a terminal
start error, a stop request, a reconciliation poll finding the session
ended remotely, the provider returning a final summary, the provider
failing to confirm stop, and a generic fault from any non-terminal
state. -/
inductive SessionEvent
  | acceptStart
  | providerAck
  | startFailed
  | stopRequest
  | remoteEnded
  | stopConfirmed
  | stopFailed
  | fault
  deriving DecidableEq, Fintype

/-- Modelled from the spec: the §4.5 transition function of the
SessionCoordinator (absent from the checked-in sources).  `none` means
the event does not apply in that state and no transition occurs. -/
def sessionStep : SessionState → SessionEvent → Option SessionState
  | .Requested, .acceptStart => some .Starting
  | .Starting, .providerAck => some .Active
  | .Starting, .startFailed => some .Failed
  | .Active, .stopRequest => some .Stopping
  | .Active, .remoteEnded => some .Stopping
  | .Stopping, .stopConfirmed => some .Completed
  | .Stopping, .stopFailed => some .Failed
  | s, .fault =>
    if s = .Completed ∨ s = .Failed then none else some .Failed
  | _, _ => none

/-- The transition graph exactly as the claim states it: the chain
`Requested → Starting → Active → Stopping → Completed`, with `Failed`
reachable only from non-terminal states.  Written from the claim's
words, to be compared with `sessionStep`. -/
def specTransitionGraph : SessionState → SessionState → Bool
  | .Requested, .Starting => true
  | .Starting, .Active => true
  | .Active, .Stopping => true
  | .Stopping, .Completed => true
  | .Completed, _ => false
  | .Failed, _ => false
  | _, .Failed => true
  | _, _ => false

/-- Modelled from the spec: a stored Session record as far as `stop`
needs it — its state and the final energy/duration summary. -/
structure SessionRec where
  state : SessionState
  energyDeliveredKwh : ℚ
  durationMinutes : ℚ
  deriving DecidableEq

/-- Result of a `stop(sessionId)` call: the updated session record, the
summary returned to the caller, and how many times the provider's
`stopSession` capability was invoked during the call. -/
structure StopOutcome where
  session : SessionRec
  energyDeliveredKwh : ℚ
  durationMinutes : ℚ
  providerCalls : Nat
  deriving DecidableEq

/-- Modelled from the spec: `stop(sessionId)` of the SessionCoordinator
(absent from the checked-in sources).  On a session already `Completed`
the stored summary is returned without invoking the provider; otherwise
the provider's `stopSession` capability is called once, its summary is
stored, and the session becomes `Completed`. -/
def stopSession (provider : Unit → ℚ × ℚ) (s : SessionRec) : StopOutcome :=
  if s.state = .Completed then
    ⟨s, s.energyDeliveredKwh, s.durationMinutes, 0⟩
  else
    let summary := provider ()
    ⟨⟨.Completed, summary.1, summary.2⟩, summary.1, summary.2, 1⟩

/-! ### PaymentCoordinator (modelled from the spec, §4.6) -/

/-- Modelled from the spec: PaymentIntent states
`{pending, captured, failed, refunded}` (§3). -/
inductive PIState
  | pending
  | captured
  | failed
  | refunded
  deriving DecidableEq

/-- Modelled from the spec: a PaymentIntent record — session id, amount,
idempotency key, and state (§3). -/
structure PaymentIntent where
  sessionId : String
  amount : ℚ
  key : String
  state : PIState
  deriving DecidableEq

/-- Modelled from the spec: the deterministic idempotency key computed
from the session id (§4.6; the concrete derivation is absent from the
checked-in sources, only its determinism is specified). -/
def idempotencyKey (sessionId : String) : String :=
  "capture:" ++ sessionId

/-- Modelled from the spec: the PaymentCoordinator's store of
PaymentIntents plus a count of calls made to the payment-processor
capability. -/
structure PayCoordState where
  intents : List PaymentIntent
  processorCalls : Nat
  deriving DecidableEq

/-- An earlier PaymentIntent for this key that is in `captured` or
`pending` state, if one exists (§4.6's short-circuit condition). -/
def findReusable (key : String) (l : List PaymentIntent) : Option PaymentIntent :=
  l.find? fun pi =>
    pi.key == key && (pi.state == PIState.captured || pi.state == PIState.pending)

/-- Modelled from the spec: `capture` of the PaymentCoordinator (§4.6,
absent from the checked-in sources).  The idempotency key is computed
from the session id; when an earlier attempt already produced a
PaymentIntent in `captured` or `pending` state for that key, that
existing intent is returned without touching the processor; otherwise
the payment-processor capability is invoked once with the key and its
result is stored. -/
def capture (processor : String → ℚ → String → PaymentIntent)
    (st : PayCoordState) (sessionId : String) (amount : ℚ) :
    PayCoordState × PaymentIntent :=
  let key := idempotencyKey sessionId
  match findReusable key st.intents with
  | some pi => (st, pi)
  | none =>
    let pi := processor sessionId amount key
    (⟨pi :: st.intents, st.processorCalls + 1⟩, pi)

/-- `n` successive `capture` calls for the same session id, returning
the final coordinator state and every call's result in order. -/
def captureN (processor : String → ℚ → String → PaymentIntent)
    (sessionId : String) (amount : ℚ) :
    Nat → PayCoordState → PayCoordState × List PaymentIntent
  | 0, st => (st, [])
  | n + 1, st =>
    let r := capture processor st sessionId amount
    let rest := captureN processor sessionId amount n r.1
    (rest.1, r.2 :: rest.2)

/-! ### Aggregator (modelled from the spec, §4.4) -/

/-- Modelled from the spec: the per-provider failure kinds of §4.1 plus
`SchemaMismatch` for malformed payloads (§4.2, §7). -/
inductive ProviderError
  | Timeout
  | Unavailable
  | NotFound
  | Conflict
  | Unauthorized
  | SchemaMismatch
  deriving DecidableEq

/-- Modelled from the spec: a canonical Station as far as discovery
ordering needs it — canonical id, display payload, and distance from
the query point. -/
structure Station where
  id : String
  name : String
  distance : ℚ
  deriving DecidableEq

/-- One discovery fan-out outcome per provider: the provider's name with
either its well-formed station list or its failure. -/
abbrev ProviderOutcome := String × Except ProviderError (List Station)

/-- The stations contributed by the successful, well-formed provider
responses. -/
def okStations (rs : List ProviderOutcome) : List Station :=
  (rs.filterMap fun pr => pr.2.toOption).flatten

/-- The failures recorded for the error side-channel. -/
def providerFailures (rs : List ProviderOutcome) : List (String × ProviderError) :=
  rs.filterMap fun pr =>
    match pr.2 with
    | .error e => some (pr.1, e)
    | .ok _ => none

/-- The ordering the spec prescribes for discovery results: distance
ascending, ties between equal distances broken by canonical Station id. -/
def stationLe (a b : Station) : Prop :=
  a.distance < b.distance ∨ (a.distance = b.distance ∧ a.id ≤ b.id)

instance : DecidableRel stationLe := fun a b => by
  unfold stationLe; infer_instance

instance : IsTrans Station stationLe := by
  constructor
  intro a b c hab hbc
  rcases hab with h1 | ⟨h1, h1'⟩ <;> rcases hbc with h2 | ⟨h2, h2'⟩
  · exact Or.inl (h1.trans h2)
  · exact Or.inl (h2 ▸ h1)
  · exact Or.inl (h1 ▸ h2)
  · exact Or.inr ⟨h1.trans h2, h1'.trans h2'⟩

instance : IsTotal Station stationLe := by
  constructor
  intro a b
  rcases lt_trichotomy a.distance b.distance with h | h | h
  · exact Or.inl (Or.inl h)
  · rcases le_total a.id b.id with h' | h'
    · exact Or.inl (Or.inr ⟨h, h'⟩)
    · exact Or.inr (Or.inr ⟨h.symm, h'⟩)
  · exact Or.inr (Or.inl h)

/-- Modelled from the spec: `nearby` of the Aggregator (§4.4, absent
from the checked-in sources), applied to the joined per-provider
outcomes of one fan-out.  Failing providers contribute no stations but
are recorded in the error side-channel; the surviving stations are
sorted by distance with ties broken by canonical id.  The call itself
always produces a result pair. -/
def nearby (rs : List ProviderOutcome) :
    List Station × List (String × ProviderError) :=
  (List.insertionSort stationLe (okStations rs), providerFailures rs)

/-! ### Theorems -/

/-- Unfolding of `sendReq`: the interceptor pipeline at its top entry. -/
theorem sendReq_def (raw : Request → RawResult)
    (refreshFn : String → Option (String × String))
    (st : Storage) (req : Request) :
    sendReq raw refreshFn st req =
      match raw req with
      | .success d => ⟨st, .ok d, 0, [req]⟩
      | .failure status =>
        if status = some 401 ∧ req.retryFlag = false then
          match st.refreshToken with
          | none => ⟨⟨none, none, none⟩, .rejected .refreshError, 0, [req]⟩
          | some rt =>
            match refreshFn rt with
            | none => ⟨⟨none, none, none⟩, .rejected .refreshError, 0, [req]⟩
            | some p =>
              ⟨(sendReqAux raw refreshFn 1 ⟨some p.1, some p.2, st.user⟩
                  ⟨true, some p.1, req.payload⟩).store,
               (sendReqAux raw refreshFn 1 ⟨some p.1, some p.2, st.user⟩
                  ⟨true, some p.1, req.payload⟩).result,
               (sendReqAux raw refreshFn 1 ⟨some p.1, some p.2, st.user⟩
                  ⟨true, some p.1, req.payload⟩).refreshes + 1,
               req :: (sendReqAux raw refreshFn 1 ⟨some p.1, some p.2, st.user⟩
                  ⟨true, some p.1, req.payload⟩).trace⟩
        else ⟨st, .rejected (.httpError status), 0, [req]⟩ := by
  show sendReqAux raw refreshFn (1 + 1) st req = _
  cases hr : raw req with
  | success d => simp [sendReqAux, hr]
  | failure s =>
    by_cases hc : s = some 401 ∧ req.retryFlag = false
    · cases hrt : st.refreshToken with
      | none => simp [sendReqAux, hr, hc, hrt]
      | some rt =>
        cases hrf : refreshFn rt with
        | none => simp [sendReqAux, hr, hc, hrt, hrf]
        | some p =>
          obtain ⟨a, b⟩ := p
          simp [sendReqAux, hr, hc, hrt, hrf]
    · simp [sendReqAux, hr, hc]

/-- A request already marked `_retry` goes through the interceptor
without any refresh: success passes through, every failure is rejected. -/
theorem sendReqAux_one_retry (raw : Request → RawResult)
    (refreshFn : String → Option (String × String))
    (st : Storage) (req : Request) (h : req.retryFlag = true) :
    sendReqAux raw refreshFn 1 st req =
      match raw req with
      | .success d => ⟨st, .ok d, 0, [req]⟩
      | .failure s => ⟨st, .rejected (.httpError s), 0, [req]⟩ := by
  show sendReqAux raw refreshFn (0 + 1) st req = _
  cases hr : raw req with
  | success d => simp [sendReqAux, hr]
  | failure s => simp [sendReqAux, hr, h]


/-- C1: a 401 causes at most one token-refresh-and-retry per request:
`apiClient` performs at most one refresh and puts at most two raw
requests on the wire, every wire request re-issues the original payload,
a request already marked `_retry` triggers no refresh and has any
failure rejected straight to the caller (in particular a second 401),
and a first 401 with a stored refresh token and a working refresh
endpoint performs exactly one refresh followed by exactly one re-issue
of the original request. -/
theorem apiClient_single_refresh_retry (raw : Request → RawResult)
    (refreshFn : String → Option (String × String))
    (st : Storage) (req : Request) :
    (sendReq raw refreshFn st req).refreshes ≤ 1 ∧
    (sendReq raw refreshFn st req).trace.length ≤ 2 ∧
    (∀ r ∈ (sendReq raw refreshFn st req).trace, r.payload = req.payload) ∧
    (req.retryFlag = true →
      (sendReq raw refreshFn st req).refreshes = 0 ∧
      (sendReq raw refreshFn st req).trace = [req] ∧
      ∀ s, raw req = RawResult.failure s →
        (sendReq raw refreshFn st req).result =
          SendResult.rejected (RejectKind.httpError s)) ∧
    (∀ rt a b, req.retryFlag = false → raw req = RawResult.failure (some 401) →
      st.refreshToken = some rt → refreshFn rt = some (a, b) →
      (sendReq raw refreshFn st req).refreshes = 1 ∧
      (sendReq raw refreshFn st req).trace = [req, ⟨true, some a, req.payload⟩]) := by
  rw [sendReq_def]
  cases hr : raw req with
  | success d =>
    refine ⟨by simp, by simp, ?_, ?_, ?_⟩
    · intro r hrmem
      simp only [List.mem_singleton] at hrmem
      rw [hrmem]
    · intro _
      refine ⟨rfl, rfl, ?_⟩
      intro s hs
      cases hs
    · intro rt a b _ hs
      cases hs
  | failure s =>
    dsimp only
    by_cases hc : s = some 401 ∧ req.retryFlag = false
    · obtain ⟨h401, hflag⟩ := hc
      subst h401
      rw [if_pos ⟨rfl, hflag⟩]
      cases hrt : st.refreshToken with
      | none =>
        dsimp only
        refine ⟨by simp, by simp, ?_, ?_, ?_⟩
        · intro r hrmem
          simp only [List.mem_singleton] at hrmem
          rw [hrmem]
        · intro hf
          rw [hf] at hflag
          cases hflag
        · intro rt a b _ _ hrt2
          cases hrt2
      | some rt0 =>
        dsimp only
        cases hrf : refreshFn rt0 with
        | none =>
          dsimp only
          refine ⟨by simp, by simp, ?_, ?_, ?_⟩
          · intro r hrmem
            simp only [List.mem_singleton] at hrmem
            rw [hrmem]
          · intro hf
            rw [hf] at hflag
            cases hflag
          · intro rt a b _ _ hrt2 hrf2
            rw [Option.some_inj] at hrt2
            rw [hrt2, hrf2] at hrf
            cases hrf
        | some p =>
          obtain ⟨a0, b0⟩ := p
          dsimp only
          rw [sendReqAux_one_retry raw refreshFn _ _ rfl]
          cases hr2 : raw ⟨true, some a0, req.payload⟩ with
          | success d =>
            dsimp only
            refine ⟨by simp, by simp, ?_, ?_, ?_⟩
            · intro r hrmem
              simp only [List.mem_cons, List.not_mem_nil, or_false] at hrmem
              rcases hrmem with h | h <;> rw [h]
            · intro hf
              rw [hf] at hflag
              cases hflag
            · intro rt a b _ _ hrt2 hrf2
              rw [Option.some_inj] at hrt2
              rw [hrt2, hrf2] at hrf
              injection hrf with hpair
              injection hpair with ha hb
              rw [ha]
              exact ⟨rfl, rfl⟩
          | failure s2 =>
            dsimp only
            refine ⟨by simp, by simp, ?_, ?_, ?_⟩
            · intro r hrmem
              simp only [List.mem_cons, List.not_mem_nil, or_false] at hrmem
              rcases hrmem with h | h <;> rw [h]
            · intro hf
              rw [hf] at hflag
              cases hflag
            · intro rt a b _ _ hrt2 hrf2
              rw [Option.some_inj] at hrt2
              rw [hrt2, hrf2] at hrf
              injection hrf with hpair
              injection hpair with ha hb
              rw [ha]
              exact ⟨rfl, rfl⟩
    · rw [if_neg hc]
      refine ⟨by simp, by simp, ?_, ?_, ?_⟩
      · intro r hrmem
        simp only [List.mem_singleton] at hrmem
        rw [hrmem]
      · intro _
        refine ⟨rfl, rfl, ?_⟩
        intro s' hs'
        injection hs' with h
        rw [h]
      · intro rt a b hflag h401 _ _
        injection h401 with h
        exact absurd ⟨h, hflag⟩ hc

/-- Concrete run for C1: a server that replies 401 to the original
request and succeeds on the retried one leads to exactly one refresh and
exactly one re-issue of the original payload. -/
theorem apiClient_single_refresh_retry_witness :
    (sendReq
        (fun r => if r.retryFlag then RawResult.success "ok" else RawResult.failure (some 401))
        (fun _ => some ("newA", "newR"))
        ⟨some "oldA", some "oldR", some "u"⟩
        ⟨false, some "oldA", "GET /sessions/active"⟩).refreshes = 1 ∧
    (sendReq
        (fun r => if r.retryFlag then RawResult.success "ok" else RawResult.failure (some 401))
        (fun _ => some ("newA", "newR"))
        ⟨some "oldA", some "oldR", some "u"⟩
        ⟨false, some "oldA", "GET /sessions/active"⟩).trace =
      [⟨false, some "oldA", "GET /sessions/active"⟩,
       ⟨true, some "newA", "GET /sessions/active"⟩] :=
  (apiClient_single_refresh_retry _ _ _ _).2.2.2.2 "oldR" "newA" "newR" rfl rfl rfl rfl

/-- C10: whenever the interceptor handles a 401 and the refresh fails —
either no refresh token is stored or the refresh endpoint errors — all
three stored credentials (`authToken`, `refreshToken`, `user`) are
removed before the refresh error is rejected to the caller. -/
theorem refresh_failure_clears_credentials (raw : Request → RawResult)
    (refreshFn : String → Option (String × String))
    (st : Storage) (req : Request)
    (hflag : req.retryFlag = false)
    (h401 : raw req = RawResult.failure (some 401))
    (hfail : st.refreshToken = none ∨
      ∃ rt, st.refreshToken = some rt ∧ refreshFn rt = none) :
    (sendReq raw refreshFn st req).store = ⟨none, none, none⟩ ∧
    (sendReq raw refreshFn st req).result =
      SendResult.rejected RejectKind.refreshError := by
  rw [sendReq_def, h401]
  dsimp only
  rw [if_pos ⟨rfl, hflag⟩]
  rcases hfail with h | ⟨rt, hrt, hrf⟩
  · rw [h]
    exact ⟨rfl, rfl⟩
  · rw [hrt]
    dsimp only
    rw [hrf]
    exact ⟨rfl, rfl⟩

/-- Concrete run for C10: stored credentials exist, the refresh endpoint
fails, and the interceptor wipes all three keys. -/
theorem refresh_failure_clears_credentials_witness :
    (sendReq (fun _ => RawResult.failure (some 401)) (fun _ => none)
        ⟨some "tokenA", some "tokenR", some "alice"⟩
        ⟨false, some "tokenA", "GET /user/profile"⟩).store =
      ⟨none, none, none⟩ ∧
    (sendReq (fun _ => RawResult.failure (some 401)) (fun _ => none)
        ⟨some "tokenA", some "tokenR", some "alice"⟩
        ⟨false, some "tokenA", "GET /user/profile"⟩).result =
      SendResult.rejected RejectKind.refreshError :=
  refresh_failure_clears_credentials _ _ _ _ rfl rfl
    (Or.inr ⟨"tokenR", rfl, rfl⟩)

/-- Counterexample to C8 as stated: when the login endpoint fails with a
present but empty `detail` string, the JavaScript `||` treats it as
falsy, so the caller receives the fixed fallback `'Login failed'` and
not the present detail string `""`. -/
theorem login_empty_detail_counterexample :
    (login (fun _ _ => Except.error ⟨some ""⟩) (fun _ => Except.ok "profile")
        ⟨none, none, none⟩ "user@example.com" "pw").2.error = some "Login failed" ∧
    ¬ (login (fun _ _ => Except.error ⟨some ""⟩) (fun _ => Except.ok "profile")
        ⟨none, none, none⟩ "user@example.com" "pw").2.error = some "" := by
  exact ⟨rfl, by decide⟩

/-- C8 (amended): `login` and `register` never throw past their
boundary: they always resolve to an object with a boolean `success`
field — `{success: true}` when the auth call and the profile fetch both
succeed, and otherwise `{success: false, error: e}` where `e` is the
server response's detail string when present and non-empty (JS-truthy),
and the fixed fallback message (`'Login failed'` / `'Registration
failed'`) when the detail is absent or empty. -/
theorem login_register_error_contract
    (loginApi : String → String → Except ApiFailure AuthTokens)
    (registerApi : String → String → String → String → Except ApiFailure AuthTokens)
    (profileApi : String → Except ApiFailure String)
    (st : Storage) (email password name phone : String) :
    ((login loginApi profileApi st email password).2 = ⟨true, none⟩ ∨
      ∃ m, (login loginApi profileApi st email password).2 = ⟨false, some m⟩) ∧
    (∀ e, loginApi email password = Except.error e →
      (login loginApi profileApi st email password).2 =
        ⟨false, some (jsOrElse e.detail "Login failed")⟩) ∧
    (∀ t e, loginApi email password = Except.ok t →
      profileApi t.access_token = Except.error e →
      (login loginApi profileApi st email password).2 =
        ⟨false, some (jsOrElse e.detail "Login failed")⟩) ∧
    (∀ t p, loginApi email password = Except.ok t →
      profileApi t.access_token = Except.ok p →
      (login loginApi profileApi st email password).2 = ⟨true, none⟩) ∧
    ((registerUser registerApi profileApi st email password name phone).2 =
        ⟨true, none⟩ ∨
      ∃ m, (registerUser registerApi profileApi st email password name phone).2 =
        ⟨false, some m⟩) ∧
    (∀ e, registerApi email password name phone = Except.error e →
      (registerUser registerApi profileApi st email password name phone).2 =
        ⟨false, some (jsOrElse e.detail "Registration failed")⟩) ∧
    (∀ t e, registerApi email password name phone = Except.ok t →
      profileApi t.access_token = Except.error e →
      (registerUser registerApi profileApi st email password name phone).2 =
        ⟨false, some (jsOrElse e.detail "Registration failed")⟩) ∧
    (∀ t p, registerApi email password name phone = Except.ok t →
      profileApi t.access_token = Except.ok p →
      (registerUser registerApi profileApi st email password name phone).2 =
        ⟨true, none⟩) := by
  refine ⟨?_, ?_, ?_, ?_, ?_, ?_, ?_, ?_⟩
  · cases hl : loginApi email password with
    | error e =>
      exact Or.inr ⟨jsOrElse e.detail "Login failed", by simp [login, hl]⟩
    | ok t =>
      cases hp : profileApi t.access_token with
      | error e =>
        exact Or.inr ⟨jsOrElse e.detail "Login failed", by simp [login, hl, hp]⟩
      | ok p => exact Or.inl (by simp [login, hl, hp])
  · intro e he
    simp [login, he]
  · intro t e ht he
    simp [login, ht, he]
  · intro t p ht hp
    simp [login, ht, hp]
  · cases hl : registerApi email password name phone with
    | error e =>
      exact Or.inr ⟨jsOrElse e.detail "Registration failed", by simp [registerUser, hl]⟩
    | ok t =>
      cases hp : profileApi t.access_token with
      | error e =>
        exact Or.inr ⟨jsOrElse e.detail "Registration failed", by simp [registerUser, hl, hp]⟩
      | ok p => exact Or.inl (by simp [registerUser, hl, hp])
  · intro e he
    simp [registerUser, he]
  · intro t e ht he
    simp [registerUser, ht, he]
  · intro t p ht hp
    simp [registerUser, ht, hp]

/-- Concrete run for C8: a login failing with the detail string
`'Invalid credentials'` resolves to
`{success: false, error: 'Invalid credentials'}`. -/
theorem login_register_error_contract_witness :
    (login (fun _ _ => Except.error ⟨some "Invalid credentials"⟩)
        (fun _ => Except.ok "profile") ⟨none, none, none⟩ "e" "pw").2 =
      ⟨false, some "Invalid credentials"⟩ := by
  have h := (login_register_error_contract
    (fun _ _ => Except.error ⟨some "Invalid credentials"⟩)
    (fun _ _ _ _ => Except.ok ⟨"a", "r"⟩)
    (fun _ => Except.ok "profile")
    ⟨none, none, none⟩ "e" "pw" "n" "ph").2.1 ⟨some "Invalid credentials"⟩ rfl
  rw [h]
  decide

/-- C9: after every completed `getCurrentLocation` call, `loading` is
`false` and `location` is non-null: on success it holds the device
coordinates (with the fixed `0.05` deltas), and on any failure it is set
to the San Francisco fallback with the error state set, rather than
being left unset. -/
theorem location_always_set (pos : Except Unit (ℚ × ℚ)) (st : LocState) :
    (getCurrentLocation pos st).loading = false ∧
    (getCurrentLocation pos st).location ≠ none ∧
    (∀ c, pos = Except.ok c →
      (getCurrentLocation pos st).location = some ⟨c.1, c.2, 0.05, 0.05⟩) ∧
    (pos = Except.error () →
      (getCurrentLocation pos st).location = some sanFranciscoFallback ∧
      (getCurrentLocation pos st).error = some "Failed to get current location") := by
  cases pos <;> simp [getCurrentLocation]

/-- Concrete run for C9: a failed position read leaves `loading = false`
and the San Francisco fallback in `location`. -/
theorem location_always_set_witness :
    (getCurrentLocation (Except.error ()) ⟨none, true, none⟩).location =
      some sanFranciscoFallback ∧
    (getCurrentLocation (Except.error ()) ⟨none, true, none⟩).loading = false :=
  have h := location_always_set (Except.error ()) ⟨none, true, none⟩
  ⟨(h.2.2.2 rfl).1, h.1⟩

/-- C4: every transition the SessionCoordinator state machine performs
lies on an edge of the claimed graph
`Requested → Starting → Active → Stopping → Completed`, with `Failed`
reachable only from non-terminal states; no other transition (such as
`Requested` directly to `Completed`) ever occurs. -/
theorem session_transitions_in_graph :
    ∀ (s : SessionState) (e : SessionEvent) (t : SessionState),
      sessionStep s e = some t → specTransitionGraph s t = true := by
  decide

/-- Concrete transition for C4: accepting a start call moves
`Requested` to `Starting`, an edge of the claimed graph. -/
theorem session_transitions_in_graph_witness :
    sessionStep SessionState.Requested SessionEvent.acceptStart =
      some SessionState.Starting ∧
    specTransitionGraph SessionState.Requested SessionState.Starting = true :=
  ⟨rfl, session_transitions_in_graph SessionState.Requested SessionEvent.acceptStart
    SessionState.Starting rfl⟩

/-- C5: `stop(sessionId)` is idempotent: a stop on a session already in
the `Completed` state returns the stored summary without invoking the
provider, and after any first stop a second stop returns the same
summary (same energy delivered and duration) with zero provider calls
and leaves the session unchanged. -/
theorem stop_idempotent (provider : Unit → ℚ × ℚ) (s : SessionRec) :
    (s.state = SessionState.Completed →
      stopSession provider s =
        ⟨s, s.energyDeliveredKwh, s.durationMinutes, 0⟩) ∧
    stopSession provider (stopSession provider s).session =
      ⟨(stopSession provider s).session,
       (stopSession provider s).energyDeliveredKwh,
       (stopSession provider s).durationMinutes, 0⟩ := by
  constructor
  · intro h
    simp [stopSession, h]
  · by_cases h : s.state = SessionState.Completed <;>
      simp [stopSession, h]

/-- Concrete run for C5: stopping an `Active` session yields the
provider summary; stopping again returns that same summary without a
provider call. -/
theorem stop_idempotent_witness :
    stopSession (fun _ => (99, 99)) ⟨SessionState.Completed, 12.3, 45⟩ =
      ⟨⟨SessionState.Completed, 12.3, 45⟩, 12.3, 45, 0⟩ ∧
    stopSession (fun _ => (12.3, 45))
      (stopSession (fun _ => (12.3, 45)) ⟨SessionState.Active, 0, 0⟩).session =
      ⟨(stopSession (fun _ => (12.3, 45)) ⟨SessionState.Active, 0, 0⟩).session,
       (stopSession (fun _ => (12.3, 45)) ⟨SessionState.Active, 0, 0⟩).energyDeliveredKwh,
       (stopSession (fun _ => (12.3, 45)) ⟨SessionState.Active, 0, 0⟩).durationMinutes,
       0⟩ :=
  ⟨(stop_idempotent (fun _ => (99, 99)) ⟨SessionState.Completed, 12.3, 45⟩).1 rfl,
   (stop_idempotent (fun _ => (12.3, 45)) ⟨SessionState.Active, 0, 0⟩).2⟩

/-- Any PaymentIntent found by `findReusable` carries the searched key
and is in `captured` or `pending` state. -/
theorem find_some_key {key : String} {l : List PaymentIntent}
    {pi : PaymentIntent} (h : findReusable key l = some pi) :
    pi.key = key ∧ (pi.state = PIState.captured ∨ pi.state = PIState.pending) := by
  have hp := List.find?_some h
  simp only [Bool.and_eq_true, Bool.or_eq_true, beq_iff_eq] at hp
  exact hp

/-- When a reusable PaymentIntent exists for the session's key,
`capture` returns it and leaves the coordinator state untouched. -/
theorem capture_found (processor : String → ℚ → String → PaymentIntent)
    {st : PayCoordState} {sid : String} (amt : ℚ) {pi : PaymentIntent}
    (h : findReusable (idempotencyKey sid) st.intents = some pi) :
    capture processor st sid amt = (st, pi) := by
  simp [capture, h]

/-- Repeated `capture` calls on a state that already holds a reusable
PaymentIntent for the key all return it and change nothing. -/
theorem captureN_found (processor : String → ℚ → String → PaymentIntent)
    (sid : String) (amt : ℚ) (pi : PaymentIntent) :
    ∀ (n : Nat) (st : PayCoordState),
      findReusable (idempotencyKey sid) st.intents = some pi →
      captureN processor sid amt n st = (st, List.replicate n pi)
  | 0, st, _ => by simp [captureN]
  | n + 1, st, h => by
    simp [captureN, capture_found processor amt h,
      captureN_found processor sid amt pi n st h, List.replicate_succ]

/-- C2: payment capture has at most one effect per session id: starting
from a coordinator state with no reusable PaymentIntent for the
session's idempotency key, `N ≥ 1` capture calls invoke the payment
processor exactly once, and every one of the `N` calls returns the one
captured PaymentIntent produced by that single processor invocation. -/
theorem capture_exactly_once_per_session
    (processor : String → ℚ → String → PaymentIntent)
    (sid : String) (amt : ℚ) (st : PayCoordState) (n : Nat)
    (hcap : ∀ s a k, (processor s a k).state = PIState.captured)
    (hkey : ∀ s a k, (processor s a k).key = k)
    (hfresh : findReusable (idempotencyKey sid) st.intents = none) :
    (captureN processor sid amt (n + 1) st).1.processorCalls =
      st.processorCalls + 1 ∧
    (captureN processor sid amt (n + 1) st).2 =
      List.replicate (n + 1) (processor sid amt (idempotencyKey sid)) ∧
    (processor sid amt (idempotencyKey sid)).state = PIState.captured := by
  have hkey0 : (processor sid amt (idempotencyKey sid)).key = idempotencyKey sid :=
    hkey sid amt (idempotencyKey sid)
  have hcap0 : (processor sid amt (idempotencyKey sid)).state = PIState.captured :=
    hcap sid amt (idempotencyKey sid)
  have hstep : capture processor st sid amt =
      (⟨processor sid amt (idempotencyKey sid) :: st.intents,
        st.processorCalls + 1⟩, processor sid amt (idempotencyKey sid)) := by
    simp [capture, hfresh]
  have hfind : findReusable (idempotencyKey sid)
      (processor sid amt (idempotencyKey sid) :: st.intents) =
      some (processor sid amt (idempotencyKey sid)) := by
    unfold findReusable
    rw [List.find?_cons_of_pos]
    simp [hkey0, hcap0]
  have hrest := captureN_found processor sid amt
    (processor sid amt (idempotencyKey sid)) n
    ⟨processor sid amt (idempotencyKey sid) :: st.intents, st.processorCalls + 1⟩
    hfind
  refine ⟨?_, ?_, hcap0⟩
  · simp [captureN, hstep, hrest]
  · simp [captureN, hstep, hrest, List.replicate_succ]

/-- Concrete run for C2: three capture calls for one session produce one
processor call and three identical captured results. -/
theorem capture_exactly_once_per_session_witness :
    (captureN (fun s a k => ⟨s, a, k, PIState.captured⟩)
        "session_12345" 10 3 ⟨[], 0⟩).1.processorCalls = 1 ∧
    (captureN (fun s a k => ⟨s, a, k, PIState.captured⟩)
        "session_12345" 10 3 ⟨[], 0⟩).2 =
      List.replicate 3
        ⟨"session_12345", 10, idempotencyKey "session_12345", PIState.captured⟩ := by
  have h := capture_exactly_once_per_session
    (fun s a k => ⟨s, a, k, PIState.captured⟩) "session_12345" 10 ⟨[], 0⟩ 2
    (fun _ _ _ => rfl) (fun _ _ _ => rfl) rfl
  exact ⟨h.1, h.2.1⟩

/-- The PaymentIntent `capture` returns always carries the session's
idempotency key (whether reused from the store or freshly created by a
processor that echoes the key it was given). -/
theorem capture_key (processor : String → ℚ → String → PaymentIntent)
    (st : PayCoordState) (sid : String) (amt : ℚ)
    (hkey : ∀ s a k, (processor s a k).key = k) :
    (capture processor st sid amt).2.key = idempotencyKey sid := by
  cases h : findReusable (idempotencyKey sid) st.intents with
  | none => simp [capture, h, hkey]
  | some pi =>
    rw [capture_found processor amt h]
    exact (find_some_key h).1

/-- C7: the idempotency key is a deterministic function of the session
id: any two capture attempts for the same session id use the same key
(regardless of coordinator state, amount, or processor), so a retried
capture whose first attempt produced a `captured` or `pending`
PaymentIntent returns that same intent and has no further effect. -/
theorem idempotency_key_deterministic
    (p q : String → ℚ → String → PaymentIntent)
    (st st' : PayCoordState) (sid : String) (amt amt' : ℚ)
    (hkp : ∀ s a k, (p s a k).key = k)
    (hkq : ∀ s a k, (q s a k).key = k) :
    (capture p st sid amt).2.key = idempotencyKey sid ∧
    (capture q st' sid amt').2.key = (capture p st sid amt).2.key ∧
    ((capture p st sid amt).2.state = PIState.captured ∨
        (capture p st sid amt).2.state = PIState.pending →
      capture p (capture p st sid amt).1 sid amt' =
        ((capture p st sid amt).1, (capture p st sid amt).2)) := by
  refine ⟨capture_key p st sid amt hkp, ?_, ?_⟩
  · rw [capture_key p st sid amt hkp, capture_key q st' sid amt' hkq]
  · intro hstate
    cases h : findReusable (idempotencyKey sid) st.intents with
    | some pi =>
      rw [capture_found p amt h] at hstate ⊢
      exact capture_found p amt' h
    | none =>
      have hres : capture p st sid amt =
          (⟨p sid amt (idempotencyKey sid) :: st.intents,
            st.processorCalls + 1⟩, p sid amt (idempotencyKey sid)) := by
        simp [capture, h]
      rw [hres] at hstate ⊢
      apply capture_found
      unfold findReusable
      rw [List.find?_cons_of_pos]
      simp only [Bool.and_eq_true, Bool.or_eq_true, beq_iff_eq]
      exact ⟨hkp sid amt (idempotencyKey sid), hstate⟩

/-- Concrete run for C7: two captures for the same session against
different coordinator states use the same key, and an immediate retry
returns the stored intent unchanged. -/
theorem idempotency_key_deterministic_witness :
    (capture (fun s a k => ⟨s, a, k, PIState.captured⟩) ⟨[], 0⟩
        "session_12345" 10).2.key =
      (capture (fun s a k => ⟨s, a, k, PIState.captured⟩)
        ⟨[⟨"other", 5, idempotencyKey "other", PIState.captured⟩], 1⟩
        "session_12345" 25).2.key := by
  have h := idempotency_key_deterministic
    (fun s a k => ⟨s, a, k, PIState.captured⟩)
    (fun s a k => ⟨s, a, k, PIState.captured⟩)
    ⟨[], 0⟩ ⟨[⟨"other", 5, idempotencyKey "other", PIState.captured⟩], 1⟩
    "session_12345" 10 25 (fun _ _ _ => rfl) (fun _ _ _ => rfl)
  rw [h.2.1]

/-- C3: discovery absorbs per-provider failures: for every mix of
per-provider outcomes, `nearby` returns exactly the stations of the
successful, well-formed responses (as a permutation of their union),
sorted by distance ascending, and records a provider's failure in the
error side-channel exactly when that provider failed; the call itself
always returns this best-effort pair instead of failing. -/
theorem nearby_partial_results (rs : List ProviderOutcome) :
    (nearby rs).1.Perm (okStations rs) ∧
    (nearby rs).1.Sorted (fun a b => a.distance ≤ b.distance) ∧
    ∀ p e, ((p, e) ∈ (nearby rs).2 ↔ (p, Except.error e) ∈ rs) := by
  refine ⟨List.perm_insertionSort _ _, ?_, ?_⟩
  · have hs := List.sorted_insertionSort stationLe (okStations rs)
    exact hs.imp fun h => by
      rcases h with h | ⟨h, _⟩
      · exact le_of_lt h
      · exact le_of_eq h
  · intro p e
    simp only [nearby, providerFailures, List.mem_filterMap]
    constructor
    · rintro ⟨⟨p0, r⟩, hmem, heq⟩
      cases r with
      | ok l => simp at heq
      | error e0 =>
        simp only [Option.some_inj, Prod.mk.injEq] at heq
        obtain ⟨h1, h2⟩ := heq
        rw [← h1, ← h2]
        exact hmem
    · intro h
      exact ⟨(p, Except.error e), h, rfl⟩

/-- Concrete run for C3: one provider succeeds with two stations out of
distance order, another times out; `nearby` returns the two stations
sorted by distance and records the timeout. -/
theorem nearby_partial_results_witness :
    (("p2", ProviderError.Timeout) ∈
      (nearby [("p1", Except.ok [⟨"b", "Hub B", 2⟩, ⟨"a", "Hub A", 1⟩]),
        ("p2", Except.error ProviderError.Timeout)]).2) ∧
    (nearby [("p1", Except.ok [⟨"b", "Hub B", 2⟩, ⟨"a", "Hub A", 1⟩]),
        ("p2", Except.error ProviderError.Timeout)]).1 =
      [⟨"a", "Hub A", 1⟩, ⟨"b", "Hub B", 2⟩] :=
  ⟨((nearby_partial_results _).2.2 "p2" ProviderError.Timeout).mpr (by simp),
   by decide⟩

/-- Two sorted lists that are permutations of one another are equal,
provided the order is antisymmetric on the elements involved. -/
theorem eq_of_perm_of_sorted_antisymmOn {α : Type} {r : α → α → Prop} :
    ∀ {l₁ l₂ : List α},
      (∀ a ∈ l₁, ∀ b ∈ l₁, r a b → r b a → a = b) →
      l₁.Perm l₂ → l₁.Sorted r → l₂.Sorted r → l₁ = l₂ := by
  intro l₁
  induction l₁ with
  | nil =>
    intro l₂ _ hp _ _
    exact (hp.symm.eq_nil).symm
  | cons a t ih =>
    intro l₂ hanti hp hs1 hs2
    cases l₂ with
    | nil => exact absurd hp.eq_nil (List.cons_ne_nil a t)
    | cons b t2 =>
      have hab : a = b := by
        have ha2 : a ∈ b :: t2 := hp.mem_iff.mp (List.mem_cons_self a t)
        rcases List.mem_cons.mp ha2 with h | h
        · exact h
        · have hb1 : b ∈ a :: t := hp.mem_iff.mpr (List.mem_cons_self b t2)
          rcases List.mem_cons.mp hb1 with h1 | h1
          · exact h1.symm
          · have rab : r a b := (List.sorted_cons.mp hs1).1 b h1
            have rba : r b a := (List.sorted_cons.mp hs2).1 a h
            exact hanti a (List.mem_cons_self a t) b
              (List.mem_cons_of_mem a h1) rab rba
      subst hab
      have ht : t = t2 :=
        ih (fun x hx y hy => hanti x (List.mem_cons_of_mem a hx) y
            (List.mem_cons_of_mem a hy))
          hp.cons_inv (List.sorted_cons.mp hs1).2 (List.sorted_cons.mp hs2).2
      rw [ht]

/-- C6: within one Aggregator call the returned station list is
deterministic regardless of the order in which providers respond:
permuting the per-provider outcomes leaves the sorted result (distance
ascending, ties broken by canonical Station id) unchanged, provided
stations that tie on both distance and canonical id are the same
station. -/
theorem nearby_order_deterministic (rs1 rs2 : List ProviderOutcome)
    (hperm : rs1.Perm rs2)
    (hids : ∀ a ∈ okStations rs1, ∀ b ∈ okStations rs1,
      a.distance = b.distance → a.id = b.id → a = b) :
    (nearby rs1).1 = (nearby rs2).1 := by
  show List.insertionSort stationLe (okStations rs1) =
    List.insertionSort stationLe (okStations rs2)
  have hok : (okStations rs1).Perm (okStations rs2) := by
    unfold okStations
    exact (hperm.filterMap (fun pr : ProviderOutcome => pr.2.toOption)).flatten
  have hp : (List.insertionSort stationLe (okStations rs1)).Perm
      (List.insertionSort stationLe (okStations rs2)) :=
    (List.perm_insertionSort _ _).trans
      (hok.trans (List.perm_insertionSort _ _).symm)
  refine eq_of_perm_of_sorted_antisymmOn ?_ hp
    (List.sorted_insertionSort _ _) (List.sorted_insertionSort _ _)
  intro x hx y hy hxy hyx
  have hx1 : x ∈ okStations rs1 := (List.mem_insertionSort _).mp hx
  have hy1 : y ∈ okStations rs1 := (List.mem_insertionSort _).mp hy
  have hdx : x.distance ≤ y.distance := by
    rcases hxy with h | ⟨h, _⟩
    · exact le_of_lt h
    · exact le_of_eq h
  have hdy : y.distance ≤ x.distance := by
    rcases hyx with h | ⟨h, _⟩
    · exact le_of_lt h
    · exact le_of_eq h
  have hd : x.distance = y.distance := le_antisymm hdx hdy
  have hix : x.id ≤ y.id := by
    rcases hxy with h | ⟨_, h⟩
    · exact absurd hd (ne_of_lt h)
    · exact h
  have hiy : y.id ≤ x.id := by
    rcases hyx with h | ⟨_, h⟩
    · exact absurd hd.symm (ne_of_lt h)
    · exact h
  exact hids x hx1 y hy1 hd (le_antisymm hix hiy)

/-- Concrete run for C6: swapping the order in which two providers
respond (one of them failing) leaves the merged, tie-broken station list
unchanged. -/
theorem nearby_order_deterministic_witness :
    (nearby [("p1", Except.ok [⟨"a", "Hub A", 1⟩]),
        ("p2", Except.error ProviderError.Timeout),
        ("p3", Except.ok [⟨"b", "Hub B", 1⟩])]).1 =
    (nearby [("p2", Except.error ProviderError.Timeout),
        ("p1", Except.ok [⟨"a", "Hub A", 1⟩]),
        ("p3", Except.ok [⟨"b", "Hub B", 1⟩])]).1 :=
  by exact nearby_order_deterministic _ _ (List.Perm.swap _ _ _) (by decide)

end EVCP
